import Mathlib

/-!
Verification of the gpx_reducer track-simplification and route-statistics core.

The definitions below are shallow embeddings of the repository's source:
* `DirectionUtils` (src/directionUtils.js): per-axis direction signs;
* `reducePointsByDirection` (src/gpxProcessor.js / .ts): the simplifier;
* `calculateDistance`, `calculateBearing`, `calculateRouteStatistics`
  (src/statistics.ts): great-circle geometry and aggregate statistics.

JavaScript numbers are modelled as exact rationals at the comparison level
(the simplifier and all validation only compare and never accumulate error),
and as real numbers once trigonometry is involved.  A coordinate field of a
parsed point is either missing (`undefined`), present but unparseable
(`parseFloat` gives `NaN`), or a parsed numeric value.
-/

namespace GpxReducer

/-- A raw field of a parsed GPX point: absent, unparseable (NaN), or a value. -/
inductive RawVal where
  | missing : RawVal
  | nan : RawVal
  | val : ℚ → RawVal
deriving DecidableEq, Repr

/-- `parseFloat` applied to a raw field: `none` models `NaN`
(`parseFloat` of a missing field is also `NaN`). -/
def RawVal.toNum : RawVal → Option ℚ
  | RawVal.val q => some q
  | _ => none

/-- One sample of a track, as consumed by the simplifier and statistics
engine: coordinates, optional timestamp (already converted by `getTime()`
to milliseconds) and optional navionics speed annotation. -/
structure Point where
  lat : RawVal
  lon : RawVal
  time : Option ℚ
  speed : RawVal
deriving DecidableEq, Repr

/-- Convenience constructor for a point with plain numeric coordinates. -/
def mkPt (la lo : ℚ) : Point :=
  ⟨RawVal.val la, RawVal.val lo, none, RawVal.missing⟩

/-- `DirectionUtils.getDirection`: 1 if `current > previous`, -1 if
`current < previous`, 0 otherwise.  A `NaN` operand makes both strict
comparisons false, hence 0. -/
def getDirection (current previous : Option ℚ) : ℤ :=
  match current, previous with
  | some c, some p => if p < c then 1 else if c < p then -1 else 0
  | _, _ => 0

/-- `DirectionUtils.getCurrentDirections`: the pair of per-axis signs, or
`(0, 0)` when either point is absent. -/
def getCurrentDirections (current previous : Option Point) : ℤ × ℤ :=
  match current, previous with
  | some c, some p =>
      (getDirection c.lat.toNum p.lat.toNum, getDirection c.lon.toNum p.lon.toNum)
  | _, _ => (0, 0)

/-- `DirectionUtils.hasDirectionChanged`. -/
def hasDirectionChanged (current : Point) (previous : Option Point)
    (directions : ℤ × ℤ) : Bool :=
  match previous with
  | none => true
  | some p =>
      let cd := getCurrentDirections (some current) (some p)
      decide (cd.1 ≠ directions.1 ∨ cd.2 ≠ directions.2)

/-- The `for` loop of `reducePointsByDirection`, walking the points after
the first two.  `cur` is the most recent point considered, `dirs` the
tracked direction state.  Returns the points pushed by the loop together
with a flag recording whether the final input point was pushed (in the
source this is observed through the object-identity test
`reducedPoints[reducedPoints.length - 1] !== lastPoint`). -/
def reduceAux (cur : Point) (dirs : ℤ × ℤ) : List Point → List Point × Bool
  | [] => ([], false)
  | [next] =>
      if getCurrentDirections (some next) (some cur) ≠ dirs then ([next], true)
      else ([], false)
  | next :: next2 :: rest =>
      let nd := getCurrentDirections (some next) (some cur)
      if nd ≠ dirs then
        let r := reduceAux next nd (next2 :: rest)
        (next :: r.1, r.2)
      else
        reduceAux next dirs (next2 :: rest)

/-- `reducePointsByDirection` (functional export in src/gpxProcessor.ts):
keeps the first two points, every point at which the per-axis direction
pair changes, and the final point. -/
def reducePointsByDirection (points : List Point) : List Point :=
  match points with
  | [] => []
  | [p] => [p]
  | [p, q] => [p, q]
  | p0 :: p1 :: q :: rest =>
      let dirs := getCurrentDirections (some p1) (some p0)
      let r := reduceAux p1 dirs (q :: rest)
      let lastPoint := (q :: rest).getLast (List.cons_ne_nil q rest)
      p0 :: p1 :: (if r.2 then r.1 else r.1 ++ [lastPoint])

namespace GpxProcessor

/-- The class method `GpxProcessor.reducePointsByDirection`
(src/gpxProcessor.js); its body names `points[0]` as `previousPoint`
but is otherwise the same walk. -/
def reducePointsByDirection (points : List Point) : List Point :=
  match points with
  | [] => []
  | [p] => [p]
  | [p, q] => [p, q]
  | p0 :: p1 :: q :: rest =>
      let previousPoint := p0
      let currentPoint := p1
      let dirs := getCurrentDirections (some currentPoint) (some previousPoint)
      let r := reduceAux currentPoint dirs (q :: rest)
      let lastPoint := (q :: rest).getLast (List.cons_ne_nil q rest)
      p0 :: p1 :: (if r.2 then r.1 else r.1 ++ [lastPoint])

end GpxProcessor

/-- The seven points of the repository's regression fixture for the
simplifier (test/gpxProcessor.test.js). -/
def fixture : List Point :=
  [mkPt (43307228/1000000) (16457782/1000000),
   mkPt (43306211/1000000) (16454683/1000000),
   mkPt (43305673/1000000) (16453812/1000000),
   mkPt (43302485/1000000) (16447676/1000000),
   mkPt (43302471/1000000) (16447443/1000000),
   mkPt (43305502/1000000) (16433061/1000000),
   mkPt (43315637/1000000) (16408790/1000000)]

/-- Unfolding of the simplifier on an input of length at least three. -/
theorem reduce_cons₃ (p0 p1 q : Point) (rest : List Point) :
    reducePointsByDirection (p0 :: p1 :: q :: rest) =
      p0 :: p1 ::
        (if (reduceAux p1 (getCurrentDirections (some p1) (some p0)) (q :: rest)).2
         then (reduceAux p1 (getCurrentDirections (some p1) (some p0)) (q :: rest)).1
         else (reduceAux p1 (getCurrentDirections (some p1) (some p0)) (q :: rest)).1 ++
           [(q :: rest).getLast (List.cons_ne_nil q rest)]) := rfl

/-- Structure of the main walk: when the flag is `true` the pushed points
are a nonempty sublist of the remaining input ending in its last element;
when it is `false` they are a sublist of the input without its last
element. -/
theorem reduceAux_spec (l : List Point) :
    ∀ cur dirs,
      ((reduceAux cur dirs l).2 = true →
        (reduceAux cur dirs l).1 ≠ [] ∧ List.Sublist (reduceAux cur dirs l).1 l ∧
          (reduceAux cur dirs l).1.getLast? = l.getLast?) ∧
      ((reduceAux cur dirs l).2 = false →
        List.Sublist (reduceAux cur dirs l).1 l.dropLast) := by
  induction l with
  | nil => intro cur dirs; simp [reduceAux]
  | cons next rest ih =>
    intro cur dirs
    cases rest with
    | nil =>
      by_cases h : getCurrentDirections (some next) (some cur) ≠ dirs <;>
        simp [reduceAux, h]
    | cons next2 rest2 =>
      simp only [reduceAux]
      by_cases h : getCurrentDirections (some next) (some cur) ≠ dirs
      · simp only [if_pos h]
        rcases ih next (getCurrentDirections (some next) (some cur)) with ⟨ht, hf⟩
        constructor
        · intro hb
          rcases ht hb with ⟨h1, h2, h3⟩
          refine ⟨by simp, List.Sublist.cons₂ next h2, ?_⟩
          rcases List.exists_cons_of_ne_nil h1 with ⟨a, t, he⟩
          rw [he] at h3 ⊢
          rw [List.getLast?_cons_cons, List.getLast?_cons_cons]
          exact h3
        · intro hb
          have := hf hb
          simpa [List.dropLast] using List.Sublist.cons₂ next this
      · simp only [if_neg h]
        rcases ih next dirs with ⟨ht, hf⟩
        constructor
        · intro hb
          rcases ht hb with ⟨h1, h2, h3⟩
          refine ⟨h1, List.Sublist.cons _ h2, ?_⟩
          rw [List.getLast?_cons_cons]
          exact h3
        · intro hb
          have := hf hb
          simpa [List.dropLast] using List.Sublist.cons _ this

/-- The simplifier only ever drops points: its output is a sublist of its
input. -/
theorem reduce_sublist (l : List Point) :
    List.Sublist (reducePointsByDirection l) l := by
  match l with
  | [] => exact List.Sublist.refl _
  | [p] => exact List.Sublist.refl _
  | [p, q] => exact List.Sublist.refl _
  | p0 :: p1 :: q :: rest =>
    rw [reduce_cons₃]
    rcases hb : (reduceAux p1 (getCurrentDirections (some p1) (some p0)) (q :: rest)).2 with _ | _
    · simp only [Bool.false_eq_true, if_false]
      have hsub := (reduceAux_spec (q :: rest) p1 (getCurrentDirections (some p1) (some p0))).2 hb
      refine List.Sublist.cons₂ _ (List.Sublist.cons₂ _ ?_)
      have hgl : (q :: rest).dropLast ++ [(q :: rest).getLast (List.cons_ne_nil q rest)]
          = q :: rest := List.dropLast_append_getLast _
      have hstep :
          List.Sublist
            ((reduceAux p1 (getCurrentDirections (some p1) (some p0)) (q :: rest)).1 ++
              [(q :: rest).getLast (List.cons_ne_nil q rest)])
            ((q :: rest).dropLast ++ [(q :: rest).getLast (List.cons_ne_nil q rest)]) :=
        List.Sublist.append hsub (List.Sublist.refl _)
      rw [hgl] at hstep
      exact hstep
    · simp only [eq_self_iff_true, if_true]
      rcases (reduceAux_spec (q :: rest) p1 (getCurrentDirections (some p1) (some p0))).1 hb
          with ⟨h1, h2, h3⟩
      exact List.Sublist.cons₂ _ (List.Sublist.cons₂ _ h2)

/-- The simplifier preserves the first point. -/
theorem reduce_head? (l : List Point) :
    (reducePointsByDirection l).head? = l.head? := by
  match l with
  | [] => rfl
  | [p] => rfl
  | [p, q] => rfl
  | p0 :: p1 :: q :: rest =>
    rw [reduce_cons₃]
    simp only [List.head?_cons]

/-- The simplifier preserves the last point. -/
theorem reduce_getLast? (l : List Point) :
    (reducePointsByDirection l).getLast? = l.getLast? := by
  match l with
  | [] => rfl
  | [p] => rfl
  | [p, q] => rfl
  | p0 :: p1 :: q :: rest =>
    rw [reduce_cons₃]
    rcases hb : (reduceAux p1 (getCurrentDirections (some p1) (some p0)) (q :: rest)).2 with _ | _
    · simp only [Bool.false_eq_true, if_false]
      rw [List.getLast?_cons_cons, List.getLast?_cons_cons,
        show p1 :: ((reduceAux p1 (getCurrentDirections (some p1) (some p0)) (q :: rest)).1 ++
            [(q :: rest).getLast (List.cons_ne_nil q rest)])
          = (p1 :: (reduceAux p1 (getCurrentDirections (some p1) (some p0)) (q :: rest)).1) ++
            [(q :: rest).getLast (List.cons_ne_nil q rest)] from rfl,
        List.getLast?_concat, List.getLast?_cons_cons,
        List.getLast?_eq_getLast_of_ne_nil (List.cons_ne_nil q rest)]
    · simp only [eq_self_iff_true, if_true]
      rcases (reduceAux_spec (q :: rest) p1 (getCurrentDirections (some p1) (some p0))).1 hb
          with ⟨h1, h2, h3⟩
      rcases List.exists_cons_of_ne_nil h1 with ⟨a, t, he⟩
      rw [he] at h3 ⊢
      rw [List.getLast?_cons_cons, List.getLast?_cons_cons, List.getLast?_cons_cons]
      exact h3

/-- The simplifier never returns fewer than `min 2 (length input)` points. -/
theorem reduce_length (l : List Point) :
    min 2 l.length ≤ (reducePointsByDirection l).length := by
  match l with
  | [] => simp [reducePointsByDirection]
  | [p] => simp [reducePointsByDirection]
  | [p, q] => simp [reducePointsByDirection]
  | p0 :: p1 :: q :: rest =>
    rw [reduce_cons₃]
    have h2 : min 2 (p0 :: p1 :: q :: rest).length ≤ 2 := min_le_left _ _
    rcases hb : (reduceAux p1 (getCurrentDirections (some p1) (some p0)) (q :: rest)).2 with _ | _ <;>
      simp

/-! ### Geometry module (src/statistics.ts) -/

/-- The three error classes thrown by `calculateDistance` and
`calculateBearing`: invalid input points, unparseable coordinate values,
and out-of-range coordinates. -/
inductive GeoError where
  | invalidInput : GeoError
  | invalidCoordinateValue : GeoError
  | outOfRange : GeoError
deriving DecidableEq, Repr

/-- The validation prologue shared verbatim by `calculateDistance` and
`calculateBearing`: reject an absent point or an `undefined` coordinate
field, then parse all four coordinates, then check ranges (latitudes
first, then longitudes). -/
def parsedCoords (point1 point2 : Option Point) : Except GeoError (ℚ × ℚ × ℚ × ℚ) :=
  match point1, point2 with
  | some q1, some q2 =>
    if q1.lat = RawVal.missing ∨ q1.lon = RawVal.missing ∨
        q2.lat = RawVal.missing ∨ q2.lon = RawVal.missing then
      Except.error GeoError.invalidInput
    else
      match q1.lat.toNum, q1.lon.toNum, q2.lat.toNum, q2.lon.toNum with
      | some lat1, some lon1, some lat2, some lon2 =>
        if 90 < |lat1| ∨ 90 < |lat2| then Except.error GeoError.outOfRange
        else if 180 < |lon1| ∨ 180 < |lon2| then Except.error GeoError.outOfRange
        else Except.ok (lat1, lon1, lat2, lon2)
      | _, _, _, _ => Except.error GeoError.invalidCoordinateValue
  | _, _ => Except.error GeoError.invalidInput

/-- Degrees to radians, as in the source's `toRad`. -/
noncomputable def toRad (v : ℚ) : ℝ := (v : ℝ) * Real.pi / 180

/-- Radians to degrees, as in the source's `toDeg`. -/
noncomputable def toDeg (v : ℝ) : ℝ := v * 180 / Real.pi

/-- JavaScript's `Math.atan2(y, x)` on real numbers (signed zero aside). -/
noncomputable def atan2 (y x : ℝ) : ℝ :=
  if 0 < x then Real.arctan (y / x)
  else if x < 0 then
    (if 0 ≤ y then Real.arctan (y / x) + Real.pi else Real.arctan (y / x) - Real.pi)
  else if 0 < y then Real.pi / 2
  else if y < 0 then -(Real.pi / 2)
  else 0

/-- Truncation toward zero, as JavaScript's `%` uses on the quotient. -/
noncomputable def rtz (r : ℝ) : ℤ := if 0 ≤ r then ⌊r⌋ else -⌊-r⌋

/-- JavaScript's remainder operator `x % y` on real numbers. -/
noncomputable def jsFmod (x y : ℝ) : ℝ := x - y * (rtz (x / y) : ℝ)

/-- `parseFloat(v.toFixed(6))`: round to six decimal places. -/
noncomputable def round6 (x : ℝ) : ℝ := (round (x * 1000000) : ℤ) / 1000000

/-- `parseFloat(v.toFixed(2))` on a real intermediate value. -/
noncomputable def round2 (x : ℝ) : ℝ := (round (x * 100) : ℤ) / 100

/-- `parseFloat(v.toFixed(2))` on an exactly-represented rational value. -/
def round2q (q : ℚ) : ℚ := (round (q * 100) : ℤ) / 100

/-- Earth's mean radius in nautical miles, `6371.0088 / 1.852`. -/
noncomputable def earthRadiusNm : ℝ := 6371.0088 / 1.852

/-- The Haversine computation of `calculateDistance` after validation,
including the final rounding to six decimal places. -/
noncomputable def haversineNm (lat1 lon1 lat2 lon2 : ℚ) : ℝ :=
  let radLat1 := toRad lat1
  let radLat2 := toRad lat2
  let dLat := toRad (lat2 - lat1)
  let dLon := toRad (lon2 - lon1)
  let a := Real.sin (dLat / 2) * Real.sin (dLat / 2) +
    Real.cos radLat1 * Real.cos radLat2 * Real.sin (dLon / 2) * Real.sin (dLon / 2)
  let c := 2 * atan2 (Real.sqrt a) (Real.sqrt (1 - a))
  round6 (earthRadiusNm * c)

/-- `calculateDistance` (src/statistics.ts): validation then Haversine. -/
noncomputable def calculateDistance (point1 point2 : Option Point) : Except GeoError ℝ :=
  Except.map (fun c => haversineNm c.1 c.2.1 c.2.2.1 c.2.2.2) (parsedCoords point1 point2)

/-- The initial-bearing computation of `calculateBearing` after validation
and after the equal-coordinates special case: `atan2` of the spherical
triangle terms, converted to degrees and normalized by `(b + 360) % 360`. -/
noncomputable def bearingVal (lat1 lon1 lat2 lon2 : ℚ) : ℝ :=
  let radLat1 := toRad lat1
  let radLon1 := toRad lon1
  let radLat2 := toRad lat2
  let radLon2 := toRad lon2
  let y := Real.sin (radLon2 - radLon1) * Real.cos radLat2
  let x := Real.cos radLat1 * Real.sin radLat2 -
    Real.sin radLat1 * Real.cos radLat2 * Real.cos (radLon2 - radLon1)
  jsFmod (toDeg (atan2 y x) + 360) 360

/-- `calculateBearing` (src/statistics.ts): validation, the identical-point
special case returning 0, then the initial-bearing formula. -/
noncomputable def calculateBearing (point1 point2 : Option Point) : Except GeoError ℝ :=
  Except.map
    (fun c => if c.1 = c.2.2.1 ∧ c.2.1 = c.2.2.2 then 0
      else bearingVal c.1 c.2.1 c.2.2.1 c.2.2.2)
    (parsedCoords point1 point2)

/-! ### Statistics engine (src/statistics.ts) -/

/-- One reduced-route segment: bearing in degrees and rounded length in
nautical miles. -/
structure DirectionSegment where
  direction : ℝ
  length : ℝ

/-- The aggregate record returned by `calculateRouteStatistics`.
`closestStart`/`closestEnd` model the source's `closestLocations` pair,
which the engine always leaves `null`. -/
structure RouteStatistics where
  originalPoints : ℕ
  reducedPoints : ℕ
  reduction : String
  straightLineDistance : ℝ
  boatDistance : ℝ
  directionChanges : ℕ
  directions : List DirectionSegment
  closestStart : Option Point
  closestEnd : Option Point
  totalHours : ℚ
  maxSpeed : ℚ

/-- `toFixed(2)` of a rational value, as a decimal string. -/
def toFixed2 (q : ℚ) : String :=
  let n : ℤ := round (q * 100)
  let sgn := if n < 0 then "-" else ""
  let m := n.natAbs
  let r := m % 100
  sgn ++ toString (m / 100) ++ "." ++ (if r < 10 then "0" else "") ++ toString r

/-- The `defaultStats` record of `calculateRouteStatistics`. -/
def defaultStats : RouteStatistics :=
  ⟨0, 0, "0.00%", 0, 0, 0, [], none, none, 0, 0⟩

/-- The contribution of one consecutive pair to `boatDistance`: the pair's
distance, or 0 when `calculateDistance` throws (the source catches the
error, logs it, and skips the pair). -/
noncomputable def pairContribution (a b : Point) : ℝ :=
  match calculateDistance (some a) (some b) with
  | Except.ok d => d
  | Except.error _ => 0

/-- The `boatDistance` accumulation loop over consecutive original pairs. -/
noncomputable def boatLoop : List Point → ℝ
  | a :: b :: rest => pairContribution a b + boatLoop (b :: rest)
  | _ => 0

/-- The `directions`/`directionChanges` loop over consecutive reduced
pairs.  `prev` is `previousBearing`; a pair whose geometry throws is
skipped without updating `prev`. -/
noncomputable def dirLoop : Option ℝ → List Point → ℕ × List DirectionSegment
  | _, [] => (0, [])
  | _, [_] => (0, [])
  | prev, a :: b :: rest =>
    match calculateBearing (some a) (some b) with
    | Except.ok bearing =>
      match calculateDistance (some a) (some b) with
      | Except.ok segLen =>
        let r := dirLoop (some bearing) (b :: rest)
        let inc : ℕ := match prev with
          | some pb => if 1 < |bearing - pb| then 1 else 0
          | none => 0
        (inc + r.1, DirectionSegment.mk bearing (round2 segLen) :: r.2)
      | Except.error _ => dirLoop prev (b :: rest)
    | Except.error _ => dirLoop prev (b :: rest)

/-- The `maxSpeed` scan: fold over the original points, keeping the
largest parsed speed seen so far, starting from 0; absent or unparseable
speed annotations leave the accumulator unchanged. -/
def maxLoop : ℚ → List Point → ℚ
  | m, [] => m
  | m, p :: rest =>
    match p.speed with
    | RawVal.val s => maxLoop (if m < s then s else m) rest
    | _ => maxLoop m rest

/-- The `totalHours` computation: elapsed milliseconds between the first
and last original timestamps divided by 3,600,000, when the sequence has
at least two points and both timestamps are present; 0 otherwise. -/
def totalHoursOf (originalPoints : List Point) : ℚ :=
  match originalPoints.head?, originalPoints.getLast? with
  | some pa, some pb =>
    if 2 ≤ originalPoints.length then
      match pa.time, pb.time with
      | some t0, some t1 => (t1 - t0) / 3600000
      | _, _ => 0
    else 0
  | _, _ => 0

/-- `calculateRouteStatistics` (src/statistics.ts).  Empty inputs return
the default record; an error escaping the straight-line distance (the one
geometry call not wrapped in its own per-pair `try`) is caught by the
outer handler, which also returns the default record; otherwise the
aggregate record is built. -/
noncomputable def calculateRouteStatistics
    (originalPoints reducedPoints : List Point) : RouteStatistics :=
  if originalPoints.isEmpty then defaultStats
  else if reducedPoints.isEmpty then defaultStats
  else
    let originalLength := originalPoints.length
    let reducedLength := reducedPoints.length
    let straightE : Except GeoError ℝ :=
      if 2 ≤ originalLength then
        calculateDistance originalPoints.head? originalPoints.getLast?
      else Except.ok 0
    match straightE with
    | Except.error _ => defaultStats
    | Except.ok s =>
      let dl := dirLoop none reducedPoints
      RouteStatistics.mk originalLength reducedLength
        (toFixed2 ((1 - (reducedLength : ℚ) / (originalLength : ℚ)) * 100) ++ "%")
        (round2 s) (round2 (boatLoop originalPoints)) dl.1 dl.2 none none
        (round2q (totalHoursOf originalPoints)) (round2q (maxLoop 0 originalPoints))

/-! ### Claims about the simplifier -/

/-- Claim C1, counterexample: on the seven-point fixture the simplifier
does not return the points at indices 0, 1, 4, 6; the third retained point
is not the point preceding the detected sign flip. -/
theorem c1_counterexample :
    reducePointsByDirection fixture ≠
      [mkPt (43307228/1000000) (16457782/1000000),
       mkPt (43306211/1000000) (16454683/1000000),
       mkPt (43302471/1000000) (16447443/1000000),
       mkPt (43315637/1000000) (16408790/1000000)] := by
  have h : reducePointsByDirection fixture =
      [mkPt (43307228/1000000) (16457782/1000000),
       mkPt (43306211/1000000) (16454683/1000000),
       mkPt (43305502/1000000) (16433061/1000000),
       mkPt (43315637/1000000) (16408790/1000000)] := by
    norm_num [fixture, reducePointsByDirection, reduceAux, getCurrentDirections,
      getDirection, RawVal.toNum, mkPt]
  rw [h]
  intro he
  have := List.getElem_of_eq he (by norm_num : 2 < 4)
  simp [mkPt, Point.mk.injEq, RawVal.val.injEq] at this
  norm_num at this

/-- Claim C1, amended: on the seven-point fixture the simplifier returns
exactly 4 points — the input points at indices 0, 1, 5 and 6; the
retained vertex is the point at which the sign flip is detected (the
first point of the new direction), not the point preceding it. -/
theorem c1_fixture_reduction :
    reducePointsByDirection fixture =
      [mkPt (43307228/1000000) (16457782/1000000),
       mkPt (43306211/1000000) (16454683/1000000),
       mkPt (43305502/1000000) (16433061/1000000),
       mkPt (43315637/1000000) (16408790/1000000)] := by
  norm_num [fixture, reducePointsByDirection, reduceAux, getCurrentDirections,
    getDirection, RawVal.toNum, mkPt]

/-- Claim C2, counterexample: simplification is not idempotent.  On the
track with latitudes 0, 1, 3, 2, 5 (constant longitude) the first pass
keeps latitudes 0, 1, 2, 5, and a second pass then drops latitude 2,
because the span from the direction anchor to the retained flip vertex now
moves in the same direction as the anchor pair. -/
theorem c2_counterexample :
    reducePointsByDirection
        (reducePointsByDirection [mkPt 0 0, mkPt 1 0, mkPt 3 0, mkPt 2 0, mkPt 5 0]) ≠
      reducePointsByDirection [mkPt 0 0, mkPt 1 0, mkPt 3 0, mkPt 2 0, mkPt 5 0] := by
  decide

/-- Claim C2, amended: reapplying the simplifier to its own output yields
a (possibly strictly shorter) subsequence of that output with the same
first and last points — it is not the identity on simplified sequences. -/
theorem c2_second_pass (points : List Point) :
    List.Sublist (reducePointsByDirection (reducePointsByDirection points))
        (reducePointsByDirection points) ∧
      (reducePointsByDirection (reducePointsByDirection points)).head? =
        (reducePointsByDirection points).head? ∧
      (reducePointsByDirection (reducePointsByDirection points)).getLast? =
        (reducePointsByDirection points).getLast? :=
  ⟨reduce_sublist _, reduce_head? _, reduce_getLast? _⟩

/-- Claim C3: the simplifier's output is a subsequence of its input in the
original order, has length at least `min 2 (length input)`, and keeps the
first and last input points (it starts with the same first element and
ends with the same last element). -/
theorem c3_invariants (points : List Point) :
    List.Sublist (reducePointsByDirection points) points ∧
      min 2 points.length ≤ (reducePointsByDirection points).length ∧
      (reducePointsByDirection points).head? = points.head? ∧
      (reducePointsByDirection points).getLast? = points.getLast? :=
  ⟨reduce_sublist _, reduce_length _, reduce_head? _, reduce_getLast? _⟩

/-- Claim C10: the class method `GpxProcessor.reducePointsByDirection`
and the standalone functional export compute the same output on every
point sequence. -/
theorem c10_class_function_equiv (points : List Point) :
    GpxProcessor.reducePointsByDirection points = reducePointsByDirection points := rfl

/-! ### Claims about the statistics engine -/

/-- Claim C6: an empty original or reduced sequence makes
`calculateRouteStatistics` return the all-default record: counts 0,
reduction "0.00%", all distances 0, zero direction changes, empty segment
list, totalHours 0, maxSpeed 0. -/
theorem c6_empty_defaults :
    (∀ reduced : List Point, calculateRouteStatistics [] reduced = defaultStats) ∧
      (∀ original : List Point, calculateRouteStatistics original [] = defaultStats) ∧
      defaultStats = ⟨0, 0, "0.00%", 0, 0, 0, [], none, none, 0, 0⟩ :=
  ⟨fun _ => rfl, fun original => by cases original <;> rfl, rfl⟩

/-- `boatDistance` accumulation as a sum over the consecutive pairs of the
sequence. -/
theorem boatLoop_eq_sum (l : List Point) :
    boatLoop l = ((l.zip l.tail).map (fun ab => pairContribution ab.1 ab.2)).sum := by
  induction l with
  | nil => simp [boatLoop]
  | cons a t ih =>
    cases t with
    | nil => simp [boatLoop]
    | cons b rest =>
      rw [show boatLoop (a :: b :: rest) = pairContribution a b + boatLoop (b :: rest)
          from rfl, ih]
      simp [List.zip]

/-- When neither input is empty and the straight-line distance call does
not throw, `calculateRouteStatistics` builds the aggregate record. -/
theorem calcStats_build (o r : List Point) (ho : o ≠ []) (hr : r ≠ []) (s : ℝ)
    (hs : (if 2 ≤ o.length then calculateDistance o.head? o.getLast? else Except.ok 0)
        = Except.ok s) :
    calculateRouteStatistics o r =
      RouteStatistics.mk o.length r.length
        (toFixed2 ((1 - (r.length : ℚ) / (o.length : ℚ)) * 100) ++ "%")
        (round2 s) (round2 (boatLoop o)) (dirLoop none r).1 (dirLoop none r).2
        none none (round2q (totalHoursOf o)) (round2q (maxLoop 0 o)) := by
  simp only [calculateRouteStatistics, List.isEmpty_eq_true, ho, hr, if_false, hs]

/-- Claim C7: a failing consecutive-pair distance inside the `boatDistance`
sum is skipped rather than aborting it — the reported `boatDistance` is the
rounded sum of the per-pair contributions, where a pair whose
`calculateDistance` throws contributes 0 while every other pair still
contributes its distance; the engine returns a record rather than
propagating the error. -/
theorem c7_boat_failures_skipped (original reduced : List Point)
    (h1 : original ≠ []) (h2 : reduced ≠ [])
    (h3 : 2 ≤ original.length →
      ∃ s, calculateDistance original.head? original.getLast? = Except.ok s) :
    (calculateRouteStatistics original reduced).boatDistance =
      round2 (((original.zip original.tail).map
        (fun ab => pairContribution ab.1 ab.2)).sum) := by
  rw [← boatLoop_eq_sum]
  by_cases hlen : 2 ≤ original.length
  · rcases h3 hlen with ⟨s, hs⟩
    rw [calcStats_build original reduced h1 h2 s (by rw [if_pos hlen]; exact hs)]
  · rw [calcStats_build original reduced h1 h2 0 (by rw [if_neg hlen])]

/-- A point whose latitude does not parse, used to exercise the per-pair
error handling of the statistics engine. -/
def badPoint : Point := ⟨RawVal.nan, RawVal.val 0, none, RawVal.missing⟩

/-- Claim C7, witness: a malformed middle point makes both of its pairs
throw; the engine still reports the (here empty) sum of the remaining
contributions. -/
theorem c7_witness :
    (calculateRouteStatistics [mkPt 0 0, badPoint, mkPt 0 1] [mkPt 0 0, mkPt 0 1]).boatDistance =
      round2 ((([mkPt 0 0, badPoint, mkPt 0 1].zip [badPoint, mkPt 0 1]).map
        (fun ab => pairContribution ab.1 ab.2)).sum) :=
  c7_boat_failures_skipped _ _ (by simp) (by simp)
    (fun _ => ⟨haversineNm 0 0 0 1, rfl⟩)

/-- Folding `max` from a bumped seed extracts the bump. -/
theorem foldr_max_shift (L : List ℚ) (a b : ℚ) :
    L.foldr max (max a b) = max b (L.foldr max a) := by
  induction L with
  | nil => exact max_comm a b
  | cons c t ih => simp only [List.foldr_cons, ih]; exact max_left_comm c b (t.foldr max a)

/-- The `maxSpeed` scan computes the `max`-fold of the parsed speeds. -/
theorem maxLoop_eq (l : List Point) :
    ∀ m, maxLoop m l = (l.filterMap (fun p => RawVal.toNum p.speed)).foldr max m := by
  induction l with
  | nil => intro m; rfl
  | cons p t ih =>
    intro m
    rcases hs : p.speed with _ | _ | sval <;>
      simp only [maxLoop, hs, RawVal.toNum, List.filterMap_cons, List.foldr_cons, ih]
    have hmax : (if m < sval then sval else m) = max m sval := by
      rcases le_or_lt sval m with h | h
      · rw [if_neg (not_lt.mpr h), max_eq_left h]
      · rw [if_pos h, max_eq_right (le_of_lt h)]
    rw [hmax, foldr_max_shift]

/-- Claim C9, counterexample: a single-point track whose only speed
annotation is -5 yields `maxSpeed = 0`, not the maximum (-5) of the valid
numeric speed values, because the scan's accumulator starts at 0. -/
theorem c9_counterexample :
    (calculateRouteStatistics
        [Point.mk (RawVal.val 0) (RawVal.val 0) none (RawVal.val (-5))]
        [Point.mk (RawVal.val 0) (RawVal.val 0) none (RawVal.val (-5))]).maxSpeed = 0 ∧
      ([Point.mk (RawVal.val 0) (RawVal.val 0) none (RawVal.val (-5))].filterMap
        (fun p => RawVal.toNum p.speed)) = [-5] ∧
      (0 : ℚ) ≠ -5 := by
  refine ⟨?_, by decide, by decide⟩
  rw [calcStats_build _ _ (by simp) (by simp) 0 (by rw [if_neg (by decide)])]
  norm_num [maxLoop, round2q, round_zero]

/-- Claim C9, amended: for nonempty inputs whose straight-line call does
not throw, the reported `maxSpeed` is the maximum of 0 and every valid
numeric speed annotation of the original points (rounded to two decimal
places); absent or unparseable speed fields are ignored and never cause an
error. -/
theorem c9_max_speed (original reduced : List Point)
    (h1 : original ≠ []) (h2 : reduced ≠ [])
    (h3 : 2 ≤ original.length →
      ∃ s, calculateDistance original.head? original.getLast? = Except.ok s) :
    (calculateRouteStatistics original reduced).maxSpeed =
      round2q ((original.filterMap (fun p => RawVal.toNum p.speed)).foldr max 0) := by
  rw [← maxLoop_eq]
  by_cases hlen : 2 ≤ original.length
  · rcases h3 hlen with ⟨s, hs⟩
    rw [calcStats_build original reduced h1 h2 s (by rw [if_pos hlen]; exact hs)]
  · rw [calcStats_build original reduced h1 h2 0 (by rw [if_neg hlen])]

/-- Claim C9, witness: the amended statement applied to a two-point track
with speeds 3 and an unparseable annotation. -/
theorem c9_witness :
    (calculateRouteStatistics
        [Point.mk (RawVal.val 0) (RawVal.val 0) none (RawVal.val 3),
         Point.mk (RawVal.val 0) (RawVal.val 1) none RawVal.nan]
        [Point.mk (RawVal.val 0) (RawVal.val 0) none (RawVal.val 3),
         Point.mk (RawVal.val 0) (RawVal.val 1) none RawVal.nan]).maxSpeed =
      round2q (([Point.mk (RawVal.val 0) (RawVal.val 0) none (RawVal.val 3),
         Point.mk (RawVal.val 0) (RawVal.val 1) none RawVal.nan].filterMap
        (fun p => RawVal.toNum p.speed)).foldr max 0) :=
  c9_max_speed _ _ (by simp) (by simp) (fun _ => ⟨haversineNm 0 0 0 1, rfl⟩)

/-! ### Claims about the geometry module -/

/-- A point lacking (at least) one coordinate field. -/
def missingField (q : Point) : Prop :=
  q.lat = RawVal.missing ∨ q.lon = RawVal.missing

/-- A point with a present but unparseable coordinate. -/
def unparseable (q : Point) : Prop :=
  q.lat = RawVal.nan ∨ q.lon = RawVal.nan

/-- A point with a parsed coordinate outside the geographic range. -/
def outOfRangePt (q : Point) : Prop :=
  (∃ x, q.lat = RawVal.val x ∧ 90 < |x|) ∨ (∃ x, q.lon = RawVal.val x ∧ 180 < |x|)

/-- `parseFloat` of a raw field fails exactly on missing or unparseable
fields. -/
theorem toNum_eq_none_iff (r : RawVal) :
    r.toNum = none ↔ r = RawVal.missing ∨ r = RawVal.nan := by
  cases r <;> simp [RawVal.toNum]

/-- `parseFloat` of a raw field yields a value exactly on a parsed field. -/
theorem toNum_eq_some_iff (r : RawVal) (x : ℚ) :
    r.toNum = some x ↔ r = RawVal.val x := by
  cases r <;> simp [RawVal.toNum]

set_option maxHeartbeats 1000000 in
/-- Exhaustive characterization of the shared validation prologue. -/
theorem parsedCoords_spec (q1 q2 : Point) :
    (parsedCoords (some q1) (some q2) = Except.error GeoError.invalidInput ↔
      missingField q1 ∨ missingField q2) ∧
    (parsedCoords (some q1) (some q2) = Except.error GeoError.invalidCoordinateValue ↔
      ¬(missingField q1 ∨ missingField q2) ∧ (unparseable q1 ∨ unparseable q2)) ∧
    (parsedCoords (some q1) (some q2) = Except.error GeoError.outOfRange ↔
      ¬(missingField q1 ∨ missingField q2) ∧ ¬(unparseable q1 ∨ unparseable q2) ∧
        (outOfRangePt q1 ∨ outOfRangePt q2)) ∧
    ((∃ c, parsedCoords (some q1) (some q2) = Except.ok c) ↔
      ¬(missingField q1 ∨ missingField q2) ∧ ¬(unparseable q1 ∨ unparseable q2) ∧
        ¬(outOfRangePt q1 ∨ outOfRangePt q2)) := by
  by_cases hm : q1.lat = RawVal.missing ∨ q1.lon = RawVal.missing ∨
      q2.lat = RawVal.missing ∨ q2.lon = RawVal.missing
  · have hpc : parsedCoords (some q1) (some q2) = Except.error GeoError.invalidInput := by
      simp only [parsedCoords, if_pos hm]
    have hm' : missingField q1 ∨ missingField q2 := by
      unfold missingField; tauto
    simp [hpc, hm']
  · have hm' : ¬(missingField q1 ∨ missingField q2) := by
      unfold missingField; tauto
    push_neg at hm
    obtain ⟨hq1lat, hq1lon, hq2lat, hq2lon⟩ := hm
    rcases h1 : q1.lat.toNum with _ | a <;> rcases h2 : q1.lon.toNum with _ | b <;>
      rcases h3 : q2.lat.toNum with _ | c <;> rcases h4 : q2.lon.toNum with _ | d
    -- leaves where at least one coordinate failed to parse
    all_goals try
      (have hun : unparseable q1 ∨ unparseable q2 := by
        unfold unparseable
        first
        | exact Or.inl (Or.inl (((toNum_eq_none_iff _).mp h1).resolve_left hq1lat))
        | exact Or.inl (Or.inr (((toNum_eq_none_iff _).mp h2).resolve_left hq1lon))
        | exact Or.inr (Or.inl (((toNum_eq_none_iff _).mp h3).resolve_left hq2lat))
        | exact Or.inr (Or.inr (((toNum_eq_none_iff _).mp h4).resolve_left hq2lon))
       have hred : parsedCoords (some q1) (some q2) =
           Except.error GeoError.invalidCoordinateValue := by
         simp only [parsedCoords]
         rw [if_neg (by tauto), h1, h2, h3, h4]
       simp [hred, hm', hun])
    -- the fully parsed leaf
    have hla := (toNum_eq_some_iff _ _).mp h1
    have hlb := (toNum_eq_some_iff _ _).mp h2
    have hlc := (toNum_eq_some_iff _ _).mp h3
    have hld := (toNum_eq_some_iff _ _).mp h4
    have hun : ¬(unparseable q1 ∨ unparseable q2) := by
      unfold unparseable
      rw [hla, hlb, hlc, hld]
      simp
    have hor : (outOfRangePt q1 ∨ outOfRangePt q2) ↔
        ((90 < |a| ∨ 90 < |c|) ∨ (180 < |b| ∨ 180 < |d|)) := by
      unfold outOfRangePt
      rw [hla, hlb, hlc, hld]
      simp only [RawVal.val.injEq, exists_eq_left, exists_eq_left']
      constructor
      · rintro (h | h) <;> tauto
      · rintro (h | h) <;> tauto
    have hred0 : parsedCoords (some q1) (some q2) =
        (if 90 < |a| ∨ 90 < |c| then Except.error GeoError.outOfRange
         else if 180 < |b| ∨ 180 < |d| then Except.error GeoError.outOfRange
         else Except.ok (a, b, c, d)) := by
      simp only [parsedCoords]
      rw [if_neg (by tauto), h1, h2, h3, h4]
    by_cases hr1 : 90 < |a| ∨ 90 < |c|
    · rw [if_pos hr1] at hred0
      simp [hred0, hm', hun, hor, hr1]
    · rw [if_neg hr1] at hred0
      by_cases hr2 : 180 < |b| ∨ 180 < |d|
      · rw [if_pos hr2] at hred0
        simp [hred0, hm', hun, hor, hr1, hr2]
      · rw [if_neg hr2] at hred0
        simp [hred0, hm', hun, hor, hr1, hr2]

/-- An error from `calculateDistance` is exactly an error of the
validation prologue. -/
theorem distance_error_iff (p1 p2 : Option Point) (e : GeoError) :
    calculateDistance p1 p2 = Except.error e ↔ parsedCoords p1 p2 = Except.error e := by
  cases h : parsedCoords p1 p2 <;> simp [calculateDistance, h, Except.map]

/-- An error from `calculateBearing` is exactly an error of the
validation prologue. -/
theorem bearing_error_iff (p1 p2 : Option Point) (e : GeoError) :
    calculateBearing p1 p2 = Except.error e ↔ parsedCoords p1 p2 = Except.error e := by
  cases h : parsedCoords p1 p2 <;> simp [calculateBearing, h, Except.map]

/-- `calculateDistance` succeeds exactly when validation does. -/
theorem distance_ok_iff (p1 p2 : Option Point) :
    (∃ v, calculateDistance p1 p2 = Except.ok v) ↔
      (∃ c, parsedCoords p1 p2 = Except.ok c) := by
  cases h : parsedCoords p1 p2 <;> simp [calculateDistance, h, Except.map]

/-- `calculateBearing` succeeds exactly when validation does. -/
theorem bearing_ok_iff (p1 p2 : Option Point) :
    (∃ v, calculateBearing p1 p2 = Except.ok v) ↔
      (∃ c, parsedCoords p1 p2 = Except.ok c) := by
  cases h : parsedCoords p1 p2 <;> simp [calculateBearing, h, Except.map]

/-- Claim C4: `calculateDistance` and `calculateBearing` throw the
invalid-input error exactly when a point is absent or missing a
coordinate field; the invalid-coordinate-value error exactly when, with
all fields present, some coordinate does not parse; the out-of-range
error exactly when, with all coordinates parsed, some latitude exceeds 90
or some longitude exceeds 180 in absolute value; and return normally in
every remaining case. -/
theorem c4_error_taxonomy :
    (∀ p : Option Point,
      calculateDistance none p = Except.error GeoError.invalidInput ∧
      calculateDistance p none = Except.error GeoError.invalidInput ∧
      calculateBearing none p = Except.error GeoError.invalidInput ∧
      calculateBearing p none = Except.error GeoError.invalidInput) ∧
    ∀ q1 q2 : Point,
      (calculateDistance (some q1) (some q2) = Except.error GeoError.invalidInput ↔
        missingField q1 ∨ missingField q2) ∧
      (calculateDistance (some q1) (some q2) = Except.error GeoError.invalidCoordinateValue ↔
        ¬(missingField q1 ∨ missingField q2) ∧ (unparseable q1 ∨ unparseable q2)) ∧
      (calculateDistance (some q1) (some q2) = Except.error GeoError.outOfRange ↔
        ¬(missingField q1 ∨ missingField q2) ∧ ¬(unparseable q1 ∨ unparseable q2) ∧
          (outOfRangePt q1 ∨ outOfRangePt q2)) ∧
      ((∃ v, calculateDistance (some q1) (some q2) = Except.ok v) ↔
        ¬(missingField q1 ∨ missingField q2) ∧ ¬(unparseable q1 ∨ unparseable q2) ∧
          ¬(outOfRangePt q1 ∨ outOfRangePt q2)) ∧
      (∀ e, calculateBearing (some q1) (some q2) = Except.error e ↔
        calculateDistance (some q1) (some q2) = Except.error e) ∧
      ((∃ v, calculateBearing (some q1) (some q2) = Except.ok v) ↔
        ∃ v, calculateDistance (some q1) (some q2) = Except.ok v) := by
  refine ⟨fun p => ⟨rfl, by cases p <;> rfl, rfl, by cases p <;> rfl⟩, fun q1 q2 => ?_⟩
  rcases parsedCoords_spec q1 q2 with ⟨hinv, hnan, hrange, hok⟩
  exact ⟨(distance_error_iff _ _ _).trans hinv,
    (distance_error_iff _ _ _).trans hnan,
    (distance_error_iff _ _ _).trans hrange,
    (distance_ok_iff _ _).trans hok,
    fun e => (bearing_error_iff _ _ _).trans (distance_error_iff _ _ _).symm,
    (bearing_ok_iff _ _).trans (distance_ok_iff _ _).symm⟩

/-- `arctan` of a nonnegative argument is nonnegative. -/
theorem arctan_nonneg_of (t : ℝ) (h : 0 ≤ t) : 0 ≤ Real.arctan t := by
  have hm := Real.arctan_strictMono.monotone h
  rwa [Real.arctan_zero] at hm

/-- `arctan` of a nonpositive argument is nonpositive. -/
theorem arctan_nonpos_of (t : ℝ) (h : t ≤ 0) : Real.arctan t ≤ 0 := by
  have hm := Real.arctan_strictMono.monotone h
  rwa [Real.arctan_zero] at hm

/-- `arctan` of a positive argument is positive. -/
theorem arctan_pos_of (t : ℝ) (h : 0 < t) : 0 < Real.arctan t := by
  have hm := Real.arctan_strictMono h
  rwa [Real.arctan_zero] at hm

/-- `Math.atan2` of a nonnegative first argument is nonnegative. -/
theorem atan2_nonneg (y x : ℝ) (hy : 0 ≤ y) : 0 ≤ atan2 y x := by
  unfold atan2
  have hπ := Real.pi_pos
  by_cases h1 : 0 < x
  · rw [if_pos h1]
    exact arctan_nonneg_of _ (div_nonneg hy h1.le)
  · rw [if_neg h1]
    by_cases h2 : x < 0
    · rw [if_pos h2, if_pos hy]
      have := Real.neg_pi_div_two_lt_arctan (y / x)
      linarith
    · rw [if_neg h2]
      by_cases h4 : 0 < y
      · rw [if_pos h4]; linarith
      · rw [if_neg h4, if_neg (not_lt.mpr hy)]

/-- `Math.atan2` never goes below `-π` (strictly). -/
theorem neg_pi_lt_atan2 (y x : ℝ) : -Real.pi < atan2 y x := by
  unfold atan2
  have hπ := Real.pi_pos
  by_cases h1 : 0 < x
  · rw [if_pos h1]
    have := Real.neg_pi_div_two_lt_arctan (y / x)
    linarith
  · rw [if_neg h1]
    by_cases h2 : x < 0
    · rw [if_pos h2]
      by_cases h3 : 0 ≤ y
      · rw [if_pos h3]
        have := Real.neg_pi_div_two_lt_arctan (y / x)
        linarith
      · rw [if_neg h3]
        have hyx : 0 < y / x := div_pos_of_neg_of_neg (lt_of_not_le h3) h2
        have := arctan_pos_of _ hyx
        linarith
    · rw [if_neg h2]
      by_cases h4 : 0 < y
      · rw [if_pos h4]; linarith
      · rw [if_neg h4]
        by_cases h5 : y < 0
        · rw [if_pos h5]; linarith
        · rw [if_neg h5]; linarith

/-- `Math.atan2` never exceeds `π`. -/
theorem atan2_le_pi (y x : ℝ) : atan2 y x ≤ Real.pi := by
  unfold atan2
  have hπ := Real.pi_pos
  by_cases h1 : 0 < x
  · rw [if_pos h1]
    have := Real.arctan_lt_pi_div_two (y / x)
    linarith
  · rw [if_neg h1]
    by_cases h2 : x < 0
    · rw [if_pos h2]
      by_cases h3 : 0 ≤ y
      · rw [if_pos h3]
        have hyx : y / x ≤ 0 := div_nonpos_iff.mpr (Or.inl ⟨h3, h2.le⟩)
        have := arctan_nonpos_of _ hyx
        linarith
      · rw [if_neg h3]
        have := Real.arctan_lt_pi_div_two (y / x)
        linarith
    · rw [if_neg h2]
      by_cases h4 : 0 < y
      · rw [if_pos h4]; linarith
      · rw [if_neg h4]
        by_cases h5 : y < 0
        · rw [if_pos h5]; linarith
        · rw [if_neg h5]; linarith

/-- Rounding to six decimals preserves nonnegativity. -/
theorem round6_nonneg (x : ℝ) (hx : 0 ≤ x) : 0 ≤ round6 x := by
  unfold round6
  have h1 : (0 : ℤ) ≤ round (x * 1000000) := by
    rw [round_eq]
    exact Int.le_floor.mpr (by push_cast; linarith)
  exact div_nonneg (by exact_mod_cast h1) (by norm_num)

/-- Rounding to six decimals fixes zero. -/
theorem round6_zero : round6 0 = 0 := by
  unfold round6
  norm_num

/-- The Haversine distance value is nonnegative. -/
theorem haversineNm_nonneg (l1 o1 l2 o2 : ℚ) : 0 ≤ haversineNm l1 o1 l2 o2 := by
  unfold haversineNm
  apply round6_nonneg
  have hR : 0 < earthRadiusNm := by unfold earthRadiusNm; norm_num
  have hc : 0 ≤ atan2 (Real.sqrt (Real.sin (toRad (l2 - l1) / 2) * Real.sin (toRad (l2 - l1) / 2) +
      Real.cos (toRad l1) * Real.cos (toRad l2) * Real.sin (toRad (o2 - o1) / 2) *
        Real.sin (toRad (o2 - o1) / 2)))
      (Real.sqrt (1 - (Real.sin (toRad (l2 - l1) / 2) * Real.sin (toRad (l2 - l1) / 2) +
      Real.cos (toRad l1) * Real.cos (toRad l2) * Real.sin (toRad (o2 - o1) / 2) *
        Real.sin (toRad (o2 - o1) / 2)))) :=
    atan2_nonneg _ _ (Real.sqrt_nonneg _)
  positivity

/-- `atan2 0 1 = 0`. -/
theorem atan2_zero_one : atan2 0 1 = 0 := by
  norm_num [atan2, Real.arctan_zero]

/-- The Haversine distance of a point from itself is zero. -/
theorem haversineNm_self (l o : ℚ) : haversineNm l o l o = 0 := by
  simp only [haversineNm, toRad, sub_self, Rat.cast_zero, zero_mul, zero_div,
    Real.sin_zero, mul_zero, zero_add, add_zero, Real.sqrt_zero, sub_zero,
    Real.sqrt_one, atan2_zero_one]
  exact round6_zero

/-- Inversion of a successful `calculateDistance` call. -/
theorem distance_ok_elim (p1 p2 : Option Point) (v : ℝ)
    (h : calculateDistance p1 p2 = Except.ok v) :
    ∃ c, parsedCoords p1 p2 = Except.ok c ∧ v = haversineNm c.1 c.2.1 c.2.2.1 c.2.2.2 := by
  cases hp : parsedCoords p1 p2 with
  | error e => rw [calculateDistance, hp] at h; simp [Except.map] at h
  | ok c =>
    rw [calculateDistance, hp] at h
    simp only [Except.map, Except.ok.injEq] at h
    exact ⟨c, rfl, h.symm⟩

/-- Validating the same point against itself parses equal coordinates. -/
theorem parsedCoords_self (p : Option Point) (c : ℚ × ℚ × ℚ × ℚ)
    (h : parsedCoords p p = Except.ok c) : c.1 = c.2.2.1 ∧ c.2.1 = c.2.2.2 := by
  rcases p with _ | q
  · simp [parsedCoords] at h
  · by_cases hm : q.lat = RawVal.missing ∨ q.lon = RawVal.missing ∨
        q.lat = RawVal.missing ∨ q.lon = RawVal.missing
    · have hred : parsedCoords (some q) (some q) = Except.error GeoError.invalidInput := by
        simp only [parsedCoords]
        rw [if_pos hm]
      rw [hred] at h
      simp at h
    · rcases h1 : q.lat.toNum with _ | a <;> rcases h2 : q.lon.toNum with _ | b
      all_goals try
        (have hred : parsedCoords (some q) (some q) =
            Except.error GeoError.invalidCoordinateValue := by
          simp only [parsedCoords]
          rw [if_neg hm, h1, h2]
         rw [hred] at h
         simp at h)
      have hred0 : parsedCoords (some q) (some q) =
          (if 90 < |a| ∨ 90 < |a| then Except.error GeoError.outOfRange
           else if 180 < |b| ∨ 180 < |b| then Except.error GeoError.outOfRange
           else Except.ok (a, b, a, b)) := by
        simp only [parsedCoords]
        rw [if_neg hm, h1, h2]
      rw [hred0] at h
      split_ifs at h
      simp only [Except.ok.injEq] at h
      subst h
      exact ⟨rfl, rfl⟩

/-- Claim C5: every successful distance is nonnegative, and the distance
of a point from itself is zero. -/
theorem c5_distance_properties :
    (∀ p1 p2 : Option Point, ∀ v, calculateDistance p1 p2 = Except.ok v → 0 ≤ v) ∧
    (∀ p : Option Point, ∀ v, calculateDistance p p = Except.ok v → v = 0) := by
  constructor
  · intro p1 p2 v h
    rcases distance_ok_elim p1 p2 v h with ⟨c, hc, rfl⟩
    exact haversineNm_nonneg _ _ _ _
  · intro p v h
    rcases distance_ok_elim p p v h with ⟨c, hc, rfl⟩
    rcases parsedCoords_self p c hc with ⟨h1, h2⟩
    rw [h1, h2]
    exact haversineNm_self _ _

/-- Claim C5, witness: both parts applied at the origin point. -/
theorem c5_witness : 0 ≤ haversineNm 0 0 0 0 ∧ haversineNm 0 0 0 0 = 0 :=
  ⟨c5_distance_properties.1 (some (mkPt 0 0)) (some (mkPt 0 0)) _ rfl,
   c5_distance_properties.2 (some (mkPt 0 0)) _ rfl⟩

/-- The Haversine distance between longitudes 180 and -180 on the equator
is exactly zero. -/
theorem haversineNm_antimeridian : haversineNm 0 180 0 (-180) = 0 := by
  have hδ : ((-180 : ℚ) - 180 : ℚ) = -360 := by norm_num
  simp only [haversineNm, toRad, hδ, sub_self, Rat.cast_zero]
  push_cast
  have e1 : Real.sin ((0 : ℝ) * Real.pi / 180 / 2) = 0 := by
    rw [show (0 : ℝ) * Real.pi / 180 / 2 = 0 by ring, Real.sin_zero]
  have e3 : Real.sin ((-360 : ℝ) * Real.pi / 180 / 2) = 0 := by
    rw [show (-360 : ℝ) * Real.pi / 180 / 2 = -Real.pi by ring, Real.sin_neg,
      Real.sin_pi, neg_zero]
  rw [e1, e3]
  norm_num [atan2_zero_one, round6_zero]

/-- Claim C5, counterexample: the two distinct in-range coordinate pairs
(0, 180) and (0, -180) are at reported distance 0, so a zero distance does
not imply equal coordinates. -/
theorem c5_counterexample :
    calculateDistance (some (mkPt 0 180)) (some (mkPt 0 (-180))) = Except.ok 0 ∧
      (180 : ℚ) ≠ -180 := by
  constructor
  · have h : calculateDistance (some (mkPt 0 180)) (some (mkPt 0 (-180))) =
        Except.ok (haversineNm 0 180 0 (-180)) := rfl
    rw [h, haversineNm_antimeridian]
  · norm_num

/-- JavaScript's `(t) % 360` maps `(180, 540]` into `[0, 360)`. -/
theorem jsFmod_range (t : ℝ) (hl : 180 < t) (hu : t ≤ 540) :
    0 ≤ jsFmod t 360 ∧ jsFmod t 360 < 360 := by
  unfold jsFmod rtz
  have ht : 0 ≤ t / 360 := le_of_lt (div_pos (by linarith) (by norm_num))
  rw [if_pos ht]
  by_cases hc : t < 360
  · have hfloor : ⌊t / 360⌋ = 0 := by
      rw [Int.floor_eq_zero_iff]
      exact ⟨ht, by rw [div_lt_one (by norm_num : (0:ℝ) < 360)]; exact hc⟩
    rw [hfloor]
    push_cast
    constructor <;> linarith
  · have h360 : (360 : ℝ) ≤ t := le_of_not_lt hc
    have hfloor : ⌊t / 360⌋ = 1 := by
      rw [Int.floor_eq_iff]
      push_cast
      constructor
      · rw [le_div_iff₀ (by norm_num : (0:ℝ) < 360)]; linarith
      · rw [div_lt_iff₀ (by norm_num : (0:ℝ) < 360)]; linarith
    rw [hfloor]
    push_cast
    constructor <;> linarith

/-- Converting an angle in `(-π, π]` to degrees lands in `(-180, 180]`. -/
theorem toDeg_bounds (v : ℝ) (hl : -Real.pi < v) (hu : v ≤ Real.pi) :
    -180 < toDeg v ∧ toDeg v ≤ 180 := by
  unfold toDeg
  have hπ := Real.pi_pos
  constructor
  · rw [lt_div_iff₀ hπ]
    nlinarith
  · rw [div_le_iff₀ hπ]
    nlinarith

/-- The normalized initial bearing lies in `[0, 360)`. -/
theorem bearingVal_mem (lat1 lon1 lat2 lon2 : ℚ) :
    0 ≤ bearingVal lat1 lon1 lat2 lon2 ∧ bearingVal lat1 lon1 lat2 lon2 < 360 := by
  unfold bearingVal
  rcases toDeg_bounds _
      (neg_pi_lt_atan2 (Real.sin (toRad lon2 - toRad lon1) * Real.cos (toRad lat2))
        (Real.cos (toRad lat1) * Real.sin (toRad lat2) -
          Real.sin (toRad lat1) * Real.cos (toRad lat2) * Real.cos (toRad lon2 - toRad lon1)))
      (atan2_le_pi _ _) with ⟨hb1, hb2⟩
  exact jsFmod_range _ (by linarith) (by linarith)

/-- Inversion of a successful `calculateBearing` call. -/
theorem bearing_ok_elim (p1 p2 : Option Point) (v : ℝ)
    (h : calculateBearing p1 p2 = Except.ok v) :
    ∃ c, parsedCoords p1 p2 = Except.ok c ∧
      v = (if c.1 = c.2.2.1 ∧ c.2.1 = c.2.2.2 then 0
        else bearingVal c.1 c.2.1 c.2.2.1 c.2.2.2) := by
  cases hp : parsedCoords p1 p2 with
  | error e => rw [calculateBearing, hp] at h; simp [Except.map] at h
  | ok c =>
    rw [calculateBearing, hp] at h
    simp only [Except.map, Except.ok.injEq] at h
    exact ⟨c, rfl, h.symm⟩

/-- Claim C8: every successful bearing lies in `[0, 360)`, and two points
with identical parsed latitude and longitude get bearing exactly 0. -/
theorem c8_bearing_range :
    (∀ p1 p2 : Option Point, ∀ v, calculateBearing p1 p2 = Except.ok v →
      0 ≤ v ∧ v < 360) ∧
    (∀ p1 p2 : Option Point, ∀ c, parsedCoords p1 p2 = Except.ok c →
      c.1 = c.2.2.1 → c.2.1 = c.2.2.2 → calculateBearing p1 p2 = Except.ok 0) := by
  constructor
  · intro p1 p2 v h
    rcases bearing_ok_elim p1 p2 v h with ⟨c, hc, rfl⟩
    by_cases he : c.1 = c.2.2.1 ∧ c.2.1 = c.2.2.2
    · rw [if_pos he]
      norm_num
    · rw [if_neg he]
      exact bearingVal_mem _ _ _ _
  · intro p1 p2 c hc h1 h2
    rw [calculateBearing, hc]
    simp only [Except.map]
    rw [if_pos ⟨h1, h2⟩]

/-- Claim C8, witness: the range statement applied to the pair
`(0, 0) → (0, 1)` whose bearing call succeeds. -/
theorem c8_witness : 0 ≤ bearingVal 0 0 0 1 ∧ bearingVal 0 0 0 1 < 360 :=
  c8_bearing_range.1 (some (mkPt 0 0)) (some (mkPt 0 1)) _ (by rfl)

end GpxReducer
